import Mathlib

/-!
Verification development for the entity-effects stat engine.

This file gives a shallow embedding of the core data model of the engine and its
operations, translated from the TypeScript source:

* stat maps (JS `Map<StatType, StatValue>` with insertion order),
* the effect classes of `core/effects.ts` (`BaseEffect.canStackWith`,
  `AdditiveEffect`, `SetValueEffect`),
* the stat-calculation pipeline of `core/Entity.ts` (`calculateStats`,
  `getSortedActiveEffects`),
* the bound calculator (`StatBoundCalculator`),
* the bound-event engine (`checkAndEmitBoundEventsForStat`,
  `shouldEmitRatioChangeEvent`, `shouldEmitThresholdCrossedEvent`),
* the value resolver (`Entity.requestValue`),
* effect timing and expiry (`addEffect`, `checkExpiredEffects`),
* the strategy-composed effects (`ComposedEffect`,
  `EffectFactory.createBoundStateEffect`).

JS numbers are modelled as rationals, string keys as `String`, JS `Map`s as
insertion-ordered association lists.  Truthiness tests on optional numeric
configuration fields (`if (config.field)`) are modelled explicitly: the
test passes only when the field is present and nonzero.
-/

namespace EntityEffects

/-- A stat map: insertion-ordered association list from stat type to value,
modelling a JS `Map<StatType, StatValue>` (keys unique). -/
abbrev StatMap := List (String × ℚ)

/-- Model of `stats.get(k)`: value of the first entry with key `k`, if any. -/
def mapGet (m : StatMap) (k : String) : Option ℚ :=
  match m.find? (fun p => p.1 == k) with
  | some p => some p.2
  | none => none

/-- Model of `stats.set(k, v)`: replace the value at key `k` in place, or append the
new entry at the end (JS `Map.set` insertion-order semantics). -/
def mapSet (m : StatMap) (k : String) (v : ℚ) : StatMap :=
  match m with
  | [] => [(k, v)]
  | (k1, v1) :: rest =>
      if k1 = k then (k, v) :: rest else (k1, v1) :: mapSet rest k v

/-- Per-stat stackability rule (`StatStackability` in `core/types.ts`). -/
structure StatStackability where
  statType : String
  stackable : Bool
deriving DecidableEq

/-- Effect context snapshot (`EffectContext` in `core/types.ts`); the
`effectStack` field is omitted (it is consulted only by
`CancellationEffect.isActive`, which is not modelled here). -/
structure EffectContext where
  entityId : String
  currentStats : StatMap
  baseStats : StatMap
  timestamp : ℚ

/-- An attached effect, seen through the `Effect` interface: identity and
priority metadata plus `apply`/`reverse`/`isActive` behaviour. -/
structure EffectObj where
  id : String
  name : String
  priority : ℚ
  statTypes : List String
  stackabilityRules : List StatStackability
  applyFn : EffectContext → StatMap → StatMap
  reverseFn : EffectContext → StatMap → StatMap
  isActiveFn : EffectContext → Bool

/-- Model of `BaseEffect.canStackWith` (and the identical `ComposedEffect.canStackWith`):
find on each side the first rule for the stat type; default to stackable when either
side lacks a rule, else both rules must be stackable. -/
def canStackWithRules (myRules otherRules : List StatStackability)
    (statType : String) : Bool :=
  match myRules.find? (fun rule => rule.statType == statType),
        otherRules.find? (fun rule => rule.statType == statType) with
  | some myRule, some otherRule => myRule.stackable && otherRule.stackable
  | _, _ => true

/-- Model of `effect.canStackWith(otherEffect, statType)`. -/
def EffectObj.canStackWith (e other : EffectObj) (statType : String) : Bool :=
  canStackWithRules e.stackabilityRules other.stackabilityRules statType

/-- Model of `AdditiveEffect` of `core/effects.ts`: adds a flat value on `apply`,
subtracts it on `reverse`; always active. -/
def AdditiveEffect (id name statType : String) (value : ℚ) (stackable : Bool)
    (priority : ℚ) : EffectObj :=
  { id := id
    name := name
    priority := priority
    statTypes := [statType]
    stackabilityRules := [{ statType := statType, stackable := stackable }]
    applyFn := fun _ stats => mapSet stats statType ((mapGet stats statType).getD 0 + value)
    reverseFn := fun _ stats => mapSet stats statType ((mapGet stats statType).getD 0 - value)
    isActiveFn := fun _ => true }

/-- Model of `SetValueEffect` of `core/effects.ts`: sets the stat to a fixed value on
`apply`; `reverse` restores the base stat; never stackable; always active. -/
def SetValueEffect (id name statType : String) (value : ℚ)
    (priority : ℚ) : EffectObj :=
  { id := id
    name := name
    priority := priority
    statTypes := [statType]
    stackabilityRules := [{ statType := statType, stackable := false }]
    applyFn := fun _ stats => mapSet stats statType value
    reverseFn := fun ctx stats => mapSet stats statType ((mapGet ctx.baseStats statType).getD 0)
    isActiveFn := fun _ => true }

/-- Ordering used by `Entity.getSortedActiveEffects`:
`effects.sort((a, b) => a.priority - b.priority)`, i.e. ascending priority. -/
def effectLE (a b : EffectObj) : Prop := a.priority ≤ b.priority

instance : DecidableRel effectLE :=
  fun a b => inferInstanceAs (Decidable (a.priority ≤ b.priority))

/-- Model of `Entity.getSortedActiveEffects`: keep effects whose `isActive` is true,
then stable-sort ascending by priority (JS `Array.sort` is stable;
`List.insertionSort` with a reflexive total order has the same tie behaviour). -/
def getSortedActiveEffects (ctx : EffectContext) (effects : List EffectObj) :
    List EffectObj :=
  List.insertionSort effectLE (effects.filter (fun e => e.isActiveFn ctx))

/-- Seeding of the working map from base stats in `Entity.calculateStats`
(`for ... of Object.entries(baseStats) { stats.set(...) }`). -/
def seedStats (baseStats : StatMap) : StatMap :=
  baseStats.foldl (fun s kv => mapSet s kv.1 kv.2) []

/-- Model of `Entity.calculateStats`: seed from base stats, gather and sort active
effects (activity there is judged against a context holding an empty working
map, as in `getSortedActiveEffects`), then apply each effect in sorted order
against the working map under one shared context whose `currentStats` is a
snapshot taken before the applies.  `Entity.getCurrentStats` returns exactly
this on a cache miss (in particular on a freshly created entity). -/
def calculateStats (entityId : String) (baseStats : StatMap)
    (effects : List EffectObj) (timestamp : ℚ) : StatMap :=
  let stats := seedStats baseStats
  let activeCtx : EffectContext :=
    { entityId := entityId, currentStats := [], baseStats := baseStats,
      timestamp := timestamp }
  let sortedEffects := getSortedActiveEffects activeCtx effects
  let context : EffectContext :=
    { entityId := entityId, currentStats := stats, baseStats := baseStats,
      timestamp := timestamp }
  sortedEffects.foldl
    (fun s e => if e.isActiveFn context then e.applyFn context s else s) stats

/-- A bound endpoint (`StatBound`): a literal value or a function of the
full stat map. -/
inductive StatBound where
  | value (v : ℚ)
  | fn (f : StatMap → ℚ)

/-- Model of `StatBoundConfig`: optional min/max endpoints plus clamping flag. -/
structure StatBoundConfig where
  min : Option StatBound
  max : Option StatBound
  clampToBounds : Bool
  defaultValue : ℚ

/-- Model of `StatBoundResult` (the `config` field carried along by the source is
omitted: none of the modelled consumers read it back). -/
structure StatBoundResult where
  statType : String
  currentValue : ℚ
  minBound : ℚ
  maxBound : ℚ
  isClamped : Bool
deriving DecidableEq

/-- Evaluate one optional bound endpoint against the stat map, with the
given default (`StatBoundCalculator.calculateBounds` endpoint logic). -/
def evalBound (b : Option StatBound) (deflt : ℚ) (stats : StatMap) : ℚ :=
  match b with
  | none => deflt
  | some (.value v) => v
  | some (.fn f) => f stats

/-- Model of `StatBoundCalculator.calculateBounds`: read the current value (missing
stat reads as 0), evaluate min (default 0) and max (default 100), swap if
min > max, and clamp the reported value when `clampToBounds` is set. -/
def calculateBounds (statType : String) (config : StatBoundConfig)
    (stats : StatMap) : StatBoundResult :=
  let currentValue := (mapGet stats statType).getD 0
  let minBound0 := evalBound config.min 0 stats
  let maxBound0 := evalBound config.max 100 stats
  let minBound := if minBound0 > maxBound0 then maxBound0 else minBound0
  let maxBound := if minBound0 > maxBound0 then minBound0 else maxBound0
  let clampedValue :=
    if config.clampToBounds then max minBound (min maxBound currentValue)
    else currentValue
  let isClamped := config.clampToBounds && decide (clampedValue ≠ currentValue)
  { statType := statType, currentValue := clampedValue,
    minBound := minBound, maxBound := maxBound, isClamped := isClamped }

/-- Model of `StatBoundCalculator.calculateRatio`: `(current-min)/(max-min)`, defined
as 0 when the bounds coincide. -/
def calculateRatio (result : StatBoundResult) : ℚ :=
  if result.maxBound = result.minBound then 0
  else (result.currentValue - result.minBound) / (result.maxBound - result.minBound)

/-- Model of `StatBoundCalculator.calculateDistanceFromMin`. -/
def calculateDistanceFromMin (result : StatBoundResult) : ℚ :=
  result.currentValue - result.minBound

/-- Model of `StatBoundCalculator.calculateDistanceFromMax`. -/
def calculateDistanceFromMax (result : StatBoundResult) : ℚ :=
  result.maxBound - result.currentValue

/-- Model of `StatBoundCalculator.isAtMin` at its default tolerance 0.001. -/
def isAtMin (result : StatBoundResult) : Bool :=
  |result.currentValue - result.minBound| ≤ 1/1000

/-- Model of `StatBoundCalculator.isAtMax` at its default tolerance 0.001. -/
def isAtMax (result : StatBoundResult) : Bool :=
  |result.currentValue - result.maxBound| ≤ 1/1000

/-- Model of `StatBoundCalculator.isWithinBounds` at its default tolerance 0.001. -/
def isWithinBounds (result : StatBoundResult) : Bool :=
  decide (result.currentValue ≥ result.minBound - 1/1000) &&
  decide (result.currentValue ≤ result.maxBound + 1/1000)

/-- Model of `BoundThresholdConfig`: optional state-label thresholds. -/
structure BoundThresholdConfig where
  critical : Option ℚ
  low : Option ℚ
  high : Option ℚ
  full : Option ℚ
  empty : Option ℚ
deriving DecidableEq

/-- Model of `DEFAULT_BOUND_THRESHOLDS` from `core/types.ts`. -/
def DEFAULT_BOUND_THRESHOLDS : BoundThresholdConfig :=
  { critical := some (1/4), low := some (1/2), high := some (3/4),
    full := some 1, empty := some 0 }

/-- Model of `StatBoundCalculator.getStateDescription`: state label with the fixed
precedence at-max, at-min, critical, low, high, normal (missing thresholds
default to 0.25 / 0.5 / 0.75). -/
def getStateDescription (result : StatBoundResult)
    (thresholdConfig : BoundThresholdConfig) : String :=
  let ratio := calculateRatio result
  if isAtMax result then "Maximum"
  else if isAtMin result then "Minimum"
  else if ratio ≤ thresholdConfig.critical.getD (1/4) then "Critical"
  else if ratio ≤ thresholdConfig.low.getD (1/2) then "Low"
  else if ratio ≥ thresholdConfig.high.getD (3/4) then "High"
  else "Normal"

/-- Model of `BoundEventConfig`: per-stat bound-event subscription.  Optional numeric
fields are `Option ℚ`; the engine tests them with JS truthiness, so `none`
and `some 0` behave alike (see `truthyQ`). -/
structure BoundEventConfig where
  statType : String
  boundConfig : StatBoundConfig
  ratioChangeThreshold : Option ℚ
  positiveChangeOnly : Bool
  negativeChangeOnly : Bool
  minDistanceFromMin : Option ℚ
  minDistanceFromMax : Option ℚ
  maxDistanceFromMin : Option ℚ
  maxDistanceFromMax : Option ℚ
  thresholdConfig : Option BoundThresholdConfig

/-- JS truthiness of an optional numeric field: present and nonzero. -/
def truthyQ (o : Option ℚ) : Bool :=
  match o with
  | none => false
  | some x => decide (x ≠ 0)

/-- Model of `BoundEventData` (fields consulted by the two emission filters, plus the
bookkeeping fields the source stores alongside them). -/
structure BoundEventData where
  statType : String
  boundResult : StatBoundResult
  previousRatio : Option ℚ
  ratioChange : Option ℚ
  previousState : Option String
  currentState : String
  distanceFromMin : ℚ
  distanceFromMax : ℚ
  isAtMinFlag : Bool
  isAtMaxFlag : Bool
  isWithinBoundsFlag : Bool

/-- Model of `Entity.shouldEmitRatioChangeEvent`: falsy `ratioChange` (absent or 0)
bails out; a truthy configured threshold requires `|change| ≥ threshold`;
the direction gates require strictly positive / strictly negative change. -/
def shouldEmitRatioChangeEvent (eventData : BoundEventData)
    (config : BoundEventConfig) : Bool :=
  match eventData.ratioChange with
  | none => false
  | some rc =>
    if rc = 0 then false
    else if truthyQ config.ratioChangeThreshold &&
            decide (|rc| < config.ratioChangeThreshold.getD 0) then false
    else if config.positiveChangeOnly && decide (rc ≤ 0) then false
    else if config.negativeChangeOnly && decide (rc ≥ 0) then false
    else true

/-- Model of `Entity.shouldEmitThresholdCrossedEvent`: each truthy configured distance
window that the current distances violate suppresses the event; otherwise it
fires. -/
def shouldEmitThresholdCrossedEvent (eventData : BoundEventData)
    (config : BoundEventConfig) : Bool :=
  if truthyQ config.minDistanceFromMin &&
     decide (eventData.distanceFromMin < config.minDistanceFromMin.getD 0) then false
  else if truthyQ config.minDistanceFromMax &&
     decide (eventData.distanceFromMax < config.minDistanceFromMax.getD 0) then false
  else if truthyQ config.maxDistanceFromMin &&
     decide (eventData.distanceFromMin > config.maxDistanceFromMin.getD 0) then false
  else if truthyQ config.maxDistanceFromMax &&
     decide (eventData.distanceFromMax > config.maxDistanceFromMax.getD 0) then false
  else true

/-- The bound event types emitted by `checkAndEmitBoundEventsForStat`
(the remaining members of the source `EventType` enum play no role here). -/
inductive EventType where
  | boundStateChanged
  | boundRatioChanged
  | boundThresholdCrossed
deriving DecidableEq

/-- Result of one check pass: the emitted events plus the updated
previous-ratio / previous-state memory cells. -/
structure BoundCheckOutcome where
  events : List EventType
  currentRatio : ℚ
  currentState : String
deriving DecidableEq

/-- Model of `Entity.checkAndEmitBoundEventsForStat`: recompute bound result, ratio
and state; emit state-changed when the label differs from the remembered one,
ratio-changed when the ratio moved by more than the hard-coded 0.001 epsilon
and `shouldEmitRatioChangeEvent` accepts, and threshold-crossed when
`shouldEmitThresholdCrossedEvent` accepts; finally update the memory cells. -/
def checkAndEmitBoundEventsForStat (statType : String)
    (config : BoundEventConfig) (currentStats : StatMap)
    (previousRatio : Option ℚ) (previousState : Option String) :
    BoundCheckOutcome :=
  let boundResult := calculateBounds statType config.boundConfig currentStats
  let currentRatio := calculateRatio boundResult
  let currentState :=
    getStateDescription boundResult (config.thresholdConfig.getD DEFAULT_BOUND_THRESHOLDS)
  let ratioChange := previousRatio.map (fun p => currentRatio - p)
  let stateChanged := previousState ≠ some currentState
  let ratioChanged :=
    match previousRatio with
    | some p => decide (|currentRatio - p| > 1/1000)
    | none => false
  let eventData : BoundEventData :=
    { statType := statType
      boundResult := boundResult
      previousRatio := previousRatio
      ratioChange := ratioChange
      previousState := previousState
      currentState := currentState
      distanceFromMin := calculateDistanceFromMin boundResult
      distanceFromMax := calculateDistanceFromMax boundResult
      isAtMinFlag := isAtMin boundResult
      isAtMaxFlag := isAtMax boundResult
      isWithinBoundsFlag := isWithinBounds boundResult }
  let events :=
    (if stateChanged then [EventType.boundStateChanged] else []) ++
    (if ratioChanged && shouldEmitRatioChangeEvent eventData config
       then [EventType.boundRatioChanged] else []) ++
    (if shouldEmitThresholdCrossedEvent eventData config
       then [EventType.boundThresholdCrossed] else [])
  { events := events, currentRatio := currentRatio, currentState := currentState }

/-- Model of `EffectTiming` record stored by `Entity.addEffect`. -/
structure EffectTiming where
  effectId : String
  appliedAt : ℚ
  duration : Option ℚ
  expiresAt : Option ℚ
deriving DecidableEq

/-- The timing record `Entity.addEffect(effect, duration)` stores at time
`now`: `expiresAt = duration ? now + duration : undefined`, so a falsy
duration (absent or 0) records no expiry. -/
def addEffectTiming (now : ℚ) (effectId : String) (duration : Option ℚ) :
    EffectTiming :=
  { effectId := effectId
    appliedAt := now
    duration := duration
    expiresAt :=
      match duration with
      | some d => if d = 0 then none else some (now + d)
      | none => none }

/-- The expiry test of `Entity.checkExpiredEffects`:
`timing.expiresAt && currentTime >= timing.expiresAt` (JS truthiness, so a
recorded expiry of exactly 0 is treated as absent). -/
def isExpiredAt (currentTime : ℚ) (timing : EffectTiming) : Bool :=
  match timing.expiresAt with
  | none => false
  | some e => decide (e ≠ 0) && decide (currentTime ≥ e)

/-- Model of `Entity.checkExpiredEffects(currentTime)`: collect the ids of expired
timings in attachment order, remove those effects, and return the ids paired
with the surviving timings. -/
def checkExpiredEffects (currentTime : ℚ) (timings : List EffectTiming) :
    List String × List EffectTiming :=
  ((timings.filter (isExpiredAt currentTime)).map (fun t => t.effectId),
   timings.filter (fun t => !isExpiredAt currentTime t))

/-- An equipped gear, seen through the resolver: its qualification answers
(`canHandlePurpose`, `isEquipped`) and the value its `provideValue` would
return for the requested purpose, all for the single shared request context. -/
structure GearSrc where
  id : String
  priority : ℚ
  canHandle : Bool
  equipped : Bool
  provided : Option ℚ

/-- A registered value provider, seen through the resolver. -/
structure ProviderSrc where
  id : String
  priority : ℚ
  canHandle : Bool
  active : Bool
  provided : Option ℚ

/-- An attached self-describing active effect, seen through the resolver.
`supportsPurpose` models `supportedPurposes?.includes(purpose)`;
`activeForPurpose` models the optional `isActiveForPurpose` answer, gated by
the source as `!== false` (so an absent method qualifies). -/
structure ActiveEffectSrc where
  id : String
  priority : ℚ
  supportsPurpose : Bool
  activeForPurpose : Option Bool
  provided : Option ℚ

/-- One entry of the candidate list built by the resolver. -/
structure Candidate where
  id : String
  priority : ℚ
  provided : Option ℚ

/-- Candidate collection order of `Entity.requestValue`: qualifying gear
first, then qualifying providers, then qualifying active effects. -/
def collectCandidates (gears : List GearSrc) (providers : List ProviderSrc)
    (effects : List ActiveEffectSrc) : List Candidate :=
  ((gears.filter (fun g => g.canHandle && g.equipped)).map
      (fun g => { id := g.id, priority := g.priority, provided := g.provided })) ++
  ((providers.filter (fun p => p.canHandle && p.active)).map
      (fun p => { id := p.id, priority := p.priority, provided := p.provided })) ++
  ((effects.filter
      (fun e => e.supportsPurpose && decide (e.activeForPurpose ≠ some false))).map
      (fun e => { id := e.id, priority := e.priority, provided := e.provided }))

/-- Ordering used by `providers.sort((a, b) => b.priority - a.priority)`:
descending priority. -/
def candGE (a b : Candidate) : Prop := b.priority ≤ a.priority

instance : DecidableRel candGE :=
  fun a b => inferInstanceAs (Decidable (b.priority ≤ a.priority))

instance : IsTotal Candidate candGE :=
  ⟨fun a b => (le_total b.priority a.priority).imp id id⟩

instance : IsTrans Candidate candGE :=
  ⟨fun _ _ _ hab hbc => le_trans hbc hab⟩

/-- Stable descending-priority sort of the candidate list (JS `Array.sort`
is stable; ties keep collection order). -/
def sortCandidates (candidates : List Candidate) : List Candidate :=
  List.insertionSort candGE candidates

/-- Model of `ValueRequestResult` (the `purpose`, `timestamp` and `context` fields of
the source record are request-wide constants and are left implicit). -/
structure ValueRequestResult where
  value : ℚ
  provider : String
deriving DecidableEq

/-- The resolution loop of `Entity.requestValue`: walk the sorted candidates,
invoking `provideValue` on each; the first defined value is returned at once.
The second component records the ids of the candidates actually invoked, in
order. -/
def resolveLoop (candidates : List Candidate) :
    Option ValueRequestResult × List String :=
  match candidates with
  | [] => (none, [])
  | c :: rest =>
    match c.provided with
    | some v => (some { value := v, provider := c.id }, [c.id])
    | none =>
      let r := resolveLoop rest
      (r.1, c.id :: r.2)

/-- Model of `Entity.requestValue` with an invocation trace: collect qualifying
candidates, sort descending by priority, and run the short-circuiting loop. -/
def requestValueWithTrace (gears : List GearSrc) (providers : List ProviderSrc)
    (effects : List ActiveEffectSrc) :
    Option ValueRequestResult × List String :=
  resolveLoop (sortCandidates (collectCandidates gears providers effects))

/-- Model of `Entity.requestValue`: the returned result only. -/
def requestValue (gears : List GearSrc) (providers : List ProviderSrc)
    (effects : List ActiveEffectSrc) : Option ValueRequestResult :=
  (requestValueWithTrace gears providers effects).1

/-- Model of `ComposedEffect`: one policy per role (applicability, impact, target,
application) plus identity metadata. -/
structure ComposedEffect where
  id : String
  name : String
  priority : ℚ
  statTypes : List String
  stackabilityRules : List StatStackability
  isApplicable : EffectContext → Bool
  calculateImpact : EffectContext → String → ℚ
  getTargets : EffectContext → List String
  applyImpact : EffectContext → StatMap → String → ℚ → StatMap
  reverseImpact : EffectContext → StatMap → String → ℚ → StatMap

/-- Model of `ComposedEffect.apply`: no-op unless applicable; else for each target
stat compute the impact from the (fixed) context and delegate the mutation
to the application policy. -/
def ComposedEffect.apply (e : ComposedEffect) (ctx : EffectContext)
    (stats : StatMap) : StatMap :=
  if e.isApplicable ctx then
    (e.getTargets ctx).foldl
      (fun s statType => e.applyImpact ctx s statType (e.calculateImpact ctx statType))
      stats
  else stats

/-- Model of `ComposedEffect.reverse`: mirror of `apply` using the reverse direction
of the application policy. -/
def ComposedEffect.reverse (e : ComposedEffect) (ctx : EffectContext)
    (stats : StatMap) : StatMap :=
  if e.isApplicable ctx then
    (e.getTargets ctx).foldl
      (fun s statType => e.reverseImpact ctx s statType (e.calculateImpact ctx statType))
      stats
  else stats

/-- First-occurrence deduplication, as `Array.from(new Set(list))`. -/
def jsSetDedup (l : List String) : List String :=
  l.foldl (fun acc s => if s ∈ acc then acc else acc ++ [s]) []

/-- Model of `EffectFactory.createBoundStateEffect`: collects the union of the state
stat types of the state effects, then wires `AlwaysApplicable`, a `FunctionBasedImpact`
returning 0, a `MultipleStatTarget` over that union, and a
`FunctionBasedApplication` whose apply and reverse bodies are empty
(the source only carries comments there), so neither direction touches the
stats map and the state-keyed effects are never invoked. -/
def createBoundStateEffect (id name boundStatType : String)
    (boundConfig : StatBoundConfig) (stateEffects : List (String × EffectObj))
    (thresholdConfig : BoundThresholdConfig) (stackable : Bool)
    (priority : ℚ) : ComposedEffect :=
  let allStatTypes :=
    jsSetDedup ((stateEffects.map (fun kv => kv.2)).flatMap (fun e => e.statTypes))
  { id := id
    name := name
    priority := priority
    statTypes := allStatTypes
    stackabilityRules :=
      allStatTypes.map (fun statType => { statType := statType, stackable := stackable })
    isApplicable := fun _ => true
    calculateImpact := fun _ _ => 0
    getTargets := fun _ => allStatTypes
    applyImpact := fun _ stats _ _ => stats
    reverseImpact := fun _ stats _ _ => stats }

/-- Model of `AdditiveApplication` of the strategy library: `applyImpact` adds the
impact to the current value, `reverseImpact` subtracts it. -/
def AdditiveApplication.applyImpact (stats : StatMap) (statType : String)
    (impact : ℚ) : StatMap :=
  mapSet stats statType ((mapGet stats statType).getD 0 + impact)

/-- Reverse direction of `AdditiveApplication`. -/
def AdditiveApplication.reverseImpact (stats : StatMap) (statType : String)
    (impact : ℚ) : StatMap :=
  mapSet stats statType ((mapGet stats statType).getD 0 - impact)

/-! ## Spec-side definitions

The following definitions are written from the words of the specification, not
from the source; the theorem of each claim compares them against the translated
code above. -/

/-- Whether a rule list declares an explicit non-stackable rule for the
stat type (spec-side helper). -/
def declaresNonStackableRule (rules : List StatStackability)
    (statType : String) : Bool :=
  match rules.find? (fun rule => rule.statType == statType) with
  | some r => !r.stackable
  | none => false

/-- Spec-side reading of the stacking claim: stacking is allowed unless both
effects declare an explicit non-stackable rule for the stat type. -/
def canStackWithSpecClaim (myRules otherRules : List StatStackability)
    (statType : String) : Bool :=
  !(declaresNonStackableRule myRules statType &&
    declaresNonStackableRule otherRules statType)

/-- Spec-side reading of the ratio-changed emission claim: the delta is
non-zero, meets the configured magnitude threshold when one is configured,
and satisfies the configured direction gate. -/
def ratioEmitSpecClaim (previousRatio currentRatio : ℚ)
    (config : BoundEventConfig) : Prop :=
  currentRatio - previousRatio ≠ 0 ∧
  (∀ t, config.ratioChangeThreshold = some t → |currentRatio - previousRatio| ≥ t) ∧
  (config.positiveChangeOnly = true → currentRatio - previousRatio > 0) ∧
  (config.negativeChangeOnly = true → currentRatio - previousRatio < 0)

instance (p c : ℚ) (config : BoundEventConfig) :
    Decidable (ratioEmitSpecClaim p c config) := by
  unfold ratioEmitSpecClaim
  infer_instance

/-- Spec-side reading of the state-label precedence. -/
def stateLabelSpec (result : StatBoundResult)
    (thresholdConfig : BoundThresholdConfig) : String :=
  if |result.currentValue - result.maxBound| ≤ 1/1000 then "Maximum"
  else if |result.currentValue - result.minBound| ≤ 1/1000 then "Minimum"
  else if calculateRatio result ≤ thresholdConfig.critical.getD (1/4) then "Critical"
  else if calculateRatio result ≤ thresholdConfig.low.getD (1/2) then "Low"
  else if calculateRatio result ≥ thresholdConfig.high.getD (3/4) then "High"
  else "Normal"

/-- Spec-side expiry test: the recorded `expiresAt` is at or before `now`. -/
def expiredSpec (currentTime : ℚ) (timing : EffectTiming) : Bool :=
  match timing.expiresAt with
  | none => false
  | some e => decide (e ≤ currentTime)

/-! ## Concrete configurations used in the examples below -/

/-- Fixed bounds min 0, max 100, no clamping. -/
def simpleBounds : StatBoundConfig :=
  { min := some (.value 0), max := some (.value 100), clampToBounds := false,
    defaultValue := 0 }

/-- Subscription on stat `hp` with ratio-change magnitude threshold 0.1 and
no other filters. -/
def cfgThr : BoundEventConfig :=
  { statType := "hp", boundConfig := simpleBounds,
    ratioChangeThreshold := some (1/10),
    positiveChangeOnly := false, negativeChangeOnly := false,
    minDistanceFromMin := none, minDistanceFromMax := none,
    maxDistanceFromMin := none, maxDistanceFromMax := none,
    thresholdConfig := none }

/-- Subscription on stat `hp` with no filters configured at all. -/
def cfgNF : BoundEventConfig :=
  { statType := "hp", boundConfig := simpleBounds,
    ratioChangeThreshold := none,
    positiveChangeOnly := false, negativeChangeOnly := false,
    minDistanceFromMin := none, minDistanceFromMax := none,
    maxDistanceFromMin := none, maxDistanceFromMax := none,
    thresholdConfig := none }

/-! ## Helper lemmas -/

theorem mapGet_mapSet_self (m : StatMap) (k : String) (v : ℚ) :
    mapGet (mapSet m k v) k = some v := by
  induction m with
  | nil => simp [mapSet, mapGet, List.find?]
  | cons p rest ih =>
    obtain ⟨k1, v1⟩ := p
    by_cases hk : k1 = k
    · subst hk
      simp [mapSet, mapGet, List.find?]
    · have hbeq : (k1 == k) = false := beq_eq_false_iff_ne.mpr hk
      simp only [mapSet, if_neg hk, mapGet, List.find?, hbeq]
      exact ih

theorem foldl_const_statmap {β : Type} (l : List β) (s : StatMap) :
    l.foldl (fun a _ => a) s = s := by
  induction l generalizing s with
  | nil => rfl
  | cons b rest ih => exact ih s

theorem truthyQ_eq_false_of_unset (o : Option ℚ) (h : o = none ∨ o = some 0) :
    truthyQ o = false := by
  rcases h with h | h <;> simp [truthyQ, h]

theorem isExpiredAt_eq_expiredSpec (currentTime : ℚ) (t : EffectTiming)
    (h : ∀ e, t.expiresAt = some e → 0 < e) :
    isExpiredAt currentTime t = expiredSpec currentTime t := by
  unfold isExpiredAt expiredSpec
  cases he : t.expiresAt with
  | none => rfl
  | some e =>
    have hpos := h e he
    simp [ne_of_gt hpos, ge_iff_le]

theorem shouldEmitRatioChangeEvent_eq_true_iff (d : BoundEventData)
    (config : BoundEventConfig) (rc : ℚ) (hd : d.ratioChange = some rc) :
    shouldEmitRatioChangeEvent d config = true ↔
      (rc ≠ 0 ∧ (∀ t, config.ratioChangeThreshold = some t → |rc| ≥ t) ∧
       (config.positiveChangeOnly = true → rc > 0) ∧
       (config.negativeChangeOnly = true → rc < 0)) := by
  unfold shouldEmitRatioChangeEvent
  rw [hd]
  by_cases h0 : rc = 0
  · simp [h0]
  · cases hthr : config.ratioChangeThreshold with
    | none =>
      cases hpos : config.positiveChangeOnly <;>
        cases hneg : config.negativeChangeOnly <;>
          simp [truthyQ, h0, not_le, not_lt]
    | some t =>
      by_cases ht0 : t = 0
      · subst ht0
        cases hpos : config.positiveChangeOnly <;>
          cases hneg : config.negativeChangeOnly <;>
            simp [truthyQ, h0, not_le, not_lt, abs_nonneg]
      · by_cases habs : |rc| < t
        · have hc : (truthyQ (some t) &&
              decide (|rc| < (some t : Option ℚ).getD 0)) = true := by
            simp [truthyQ, ht0, habs]
          simp only [if_neg h0, if_pos hc, Bool.false_eq_true, false_iff]
          rintro ⟨-, h, -, -⟩
          exact absurd (h t rfl) (not_le.mpr habs)
        · cases hpos : config.positiveChangeOnly <;>
            cases hneg : config.negativeChangeOnly <;>
              simp [truthyQ, ht0, habs, h0, not_le, not_lt, le_of_not_lt habs]

theorem mem_ratioChanged_events_iff (b1 : Prop) [Decidable b1] (b2 b3 : Bool) :
    EventType.boundRatioChanged ∈
      (((if b1 then [EventType.boundStateChanged] else []) ++
        (if b2 = true then [EventType.boundRatioChanged] else [])) ++
       (if b3 = true then [EventType.boundThresholdCrossed] else [])) ↔
      b2 = true := by
  by_cases h1 : b1 <;> cases b2 <;> cases b3 <;> simp [h1]

theorem resolveLoop_spec (l : List Candidate) :
    resolveLoop l =
      ((match l.find? (fun c => c.provided.isSome) with
        | some c => c.provided.map (fun v => { value := v, provider := c.id })
        | none => none),
       ((l.takeWhile (fun c => c.provided.isNone)).map (fun c => c.id)) ++
       (match l.find? (fun c => c.provided.isSome) with
        | some c => [c.id]
        | none => [])) := by
  induction l with
  | nil => rfl
  | cons c rest ih =>
    cases hp : c.provided with
    | some v =>
      simp [resolveLoop, hp, List.find?, List.takeWhile]
    | none =>
      simp [resolveLoop, hp, List.find?, List.takeWhile, ih]

/-! ## Claim theorems -/

/-- C1 (counterexample): with the priorities swapped
(SetValueEffect priority 2, AdditiveEffect priority 1) on base `x = 0`, the
calculated stat is not 10 as the claim states: the effects are applied in
ascending priority order, so the additive effect runs first (x = 10) and the
set-value effect then overwrites the stat with 50. -/
theorem swapped_priorities_not_ten :
    mapGet (calculateStats "e" [("x", 0)]
      [SetValueEffect "s" "Set" "x" 50 2, AdditiveEffect "a" "Add" "x" 10 true 1] 0)
      "x" ≠ some 10 := by
  norm_num [calculateStats, getSortedActiveEffects, seedStats, SetValueEffect,
    AdditiveEffect, effectLE, mapSet, mapGet, List.insertionSort, List.orderedInsert,
    List.filter, List.find?, List.foldl]

/-- C1 (amended): on base stat `x = 0` with SetValueEffect(50, priority 1)
and AdditiveEffect(+10, priority 2), `calculateStats` (hence
`getCurrentStats` on a fresh entity) yields `x = 60`; with the priorities
swapped it yields `x = 50`, because the set-value effect is applied last and
overwrites the additive contribution.  The timestamp is irrelevant. -/
theorem priority_order_examples (ts : ℚ) :
    mapGet (calculateStats "e" [("x", 0)]
      [SetValueEffect "s" "Set" "x" 50 1, AdditiveEffect "a" "Add" "x" 10 true 2] ts)
      "x" = some 60 ∧
    mapGet (calculateStats "e" [("x", 0)]
      [SetValueEffect "s" "Set" "x" 50 2, AdditiveEffect "a" "Add" "x" 10 true 1] ts)
      "x" = some 50 := by
  constructor <;>
    norm_num [calculateStats, getSortedActiveEffects, seedStats, SetValueEffect,
      AdditiveEffect, effectLE, mapSet, mapGet, List.insertionSort, List.orderedInsert,
      List.filter, List.find?, List.foldl]

/-- C2 (counterexample): effect `a` declares a non-stackable rule for `x`
while effect `b` declares a stackable one.  The claim predicts stacking is
allowed (only one of the two declared rules is non-stackable), but
`canStackWith` returns false. -/
theorem one_sided_rule_blocks_stacking :
    canStackWithSpecClaim
      (AdditiveEffect "a" "A" "x" 1 false 0).stackabilityRules
      (AdditiveEffect "b" "B" "x" 2 true 0).stackabilityRules "x" = true ∧
    EffectObj.canStackWith (AdditiveEffect "a" "A" "x" 1 false 0)
      (AdditiveEffect "b" "B" "x" 2 true 0) "x" = false := by
  constructor <;> rfl

/-- C2 (amended): `canStackWith(other, statType)` returns true if and only
if at least one of the two effects declares no rule for the stat type, or
both declared rules are stackable.  Equivalently, it is false exactly when
both declare a rule and at least one of the two rules is non-stackable —
not only when both are non-stackable as the claim stated. -/
theorem canStackWith_characterization (e other : EffectObj) (statType : String) :
    EffectObj.canStackWith e other statType = true ↔
      (e.stackabilityRules.find? (fun rule => rule.statType == statType) = none ∨
       other.stackabilityRules.find? (fun rule => rule.statType == statType) = none ∨
       ∃ r1 r2,
         e.stackabilityRules.find? (fun rule => rule.statType == statType) = some r1 ∧
         other.stackabilityRules.find? (fun rule => rule.statType == statType) = some r2 ∧
         r1.stackable = true ∧ r2.stackable = true) := by
  unfold EffectObj.canStackWith canStackWithRules
  cases h1 : e.stackabilityRules.find? (fun rule => rule.statType == statType) with
  | none => simp
  | some r1 =>
    cases h2 : other.stackabilityRules.find? (fun rule => rule.statType == statType) with
    | none => simp
    | some r2 => simp [Bool.and_eq_true]

/-- C4 (confirmed): every effect built by `EffectFactory.createBoundStateEffect`
is inert — its apply and reverse leave any stats map unchanged under any
context, because the wired application policy has empty apply/reverse bodies
and the state-keyed effects are never invoked. -/
theorem boundStateEffect_applies_nothing (id name boundStatType : String)
    (boundConfig : StatBoundConfig) (stateEffects : List (String × EffectObj))
    (thresholdConfig : BoundThresholdConfig) (stackable : Bool) (priority : ℚ)
    (ctx : EffectContext) (stats : StatMap) :
    (createBoundStateEffect id name boundStatType boundConfig stateEffects
      thresholdConfig stackable priority).apply ctx stats = stats ∧
    (createBoundStateEffect id name boundStatType boundConfig stateEffects
      thresholdConfig stackable priority).reverse ctx stats = stats := by
  unfold ComposedEffect.apply ComposedEffect.reverse createBoundStateEffect
  constructor <;>
  · simp only [if_true]
    exact foldl_const_statmap _ stats

/-- C6 (confirmed): the state label follows the fixed precedence
Maximum → Minimum → Critical (ratio ≤ 0.25 default) → Low (ratio ≤ 0.5
default) → High (ratio ≥ 0.75 default) → Normal; and stat 75 with bounds
min 0, max 100 has ratio 0.75 and state High under the default thresholds. -/
theorem getStateDescription_follows_spec_precedence (result : StatBoundResult)
    (thresholdConfig : BoundThresholdConfig) :
    getStateDescription result thresholdConfig = stateLabelSpec result thresholdConfig ∧
    calculateRatio (calculateBounds "hp" simpleBounds [("hp", 75)]) = 3/4 ∧
    getStateDescription (calculateBounds "hp" simpleBounds [("hp", 75)])
      DEFAULT_BOUND_THRESHOLDS = "High" := by
  refine ⟨?_, ?_, ?_⟩
  · simp [getStateDescription, stateLabelSpec, isAtMax, isAtMin]
  · norm_num [calculateRatio, calculateBounds, simpleBounds, evalBound, mapGet,
      List.find?]
  · norm_num [getStateDescription, calculateRatio, calculateBounds, simpleBounds,
      DEFAULT_BOUND_THRESHOLDS, evalBound, isAtMax, isAtMin, mapGet, List.find?, abs]

/-- C8 (confirmed): on any stats map holding `x = 10` and under any context,
applying AdditiveEffect(+5) and then reversing it restores `x = 10` exactly;
likewise for the strategy-library `AdditiveApplication` with impact 5. -/
theorem additive_apply_reverse_roundtrip (id name : String) (stackable : Bool)
    (priority : ℚ) (ctx : EffectContext) (stats : StatMap)
    (h : mapGet stats "x" = some 10) :
    mapGet ((AdditiveEffect id name "x" 5 stackable priority).reverseFn ctx
      ((AdditiveEffect id name "x" 5 stackable priority).applyFn ctx stats)) "x"
      = some 10 ∧
    mapGet (AdditiveApplication.reverseImpact
      (AdditiveApplication.applyImpact stats "x" 5) "x" 5) "x" = some 10 := by
  constructor <;>
  · simp only [AdditiveEffect, AdditiveApplication.applyImpact,
      AdditiveApplication.reverseImpact, h, Option.getD_some, mapGet_mapSet_self]
    norm_num

/-- Witness for C8 at the concrete map holding `x = 10`. -/
theorem additive_apply_reverse_roundtrip_witness :
    mapGet ((AdditiveEffect "a" "Add" "x" 5 true 0).reverseFn
      { entityId := "e", currentStats := [], baseStats := [], timestamp := 0 }
      ((AdditiveEffect "a" "Add" "x" 5 true 0).applyFn
        { entityId := "e", currentStats := [], baseStats := [], timestamp := 0 }
        [("x", 10)])) "x" = some 10 :=
  (additive_apply_reverse_roundtrip "a" "Add" true 0
    { entityId := "e", currentStats := [], baseStats := [], timestamp := 0 }
    [("x", 10)] rfl).1

/-- C10 (confirmed): `addEffect(effect, 0)` records no `expiresAt` (the falsy
duration 0 is treated like an absent duration), so such an effect is never
deemed expired and survives `checkExpiredEffects` at every later time. -/
theorem zero_duration_effect_never_expires (now later : ℚ) (effectId : String)
    (timings : List EffectTiming) :
    (addEffectTiming now effectId (some 0)).expiresAt = none ∧
    isExpiredAt later (addEffectTiming now effectId (some 0)) = false ∧
    (addEffectTiming now effectId (some 0) ∈ timings →
      addEffectTiming now effectId (some 0) ∈ (checkExpiredEffects later timings).2) := by
  refine ⟨rfl, rfl, fun hmem => ?_⟩
  simp only [checkExpiredEffects, List.mem_filter]
  exact ⟨hmem, by simp [isExpiredAt, addEffectTiming]⟩

/-- Witness for C10: an effect added with duration 0 at time 3 is still
attached after a check at time 99. -/
theorem zero_duration_effect_never_expires_witness :
    (addEffectTiming 3 "e" (some 0)).expiresAt = none ∧
    isExpiredAt 99 (addEffectTiming 3 "e" (some 0)) = false ∧
    addEffectTiming 3 "e" (some 0) ∈
      (checkExpiredEffects 99 [addEffectTiming 3 "e" (some 0)]).2 :=
  ⟨(zero_duration_effect_never_expires 3 99 "e" [addEffectTiming 3 "e" (some 0)]).1,
   (zero_duration_effect_never_expires 3 99 "e" [addEffectTiming 3 "e" (some 0)]).2.1,
   (zero_duration_effect_never_expires 3 99 "e" [addEffectTiming 3 "e" (some 0)]).2.2
     (by simp)⟩

/-- C3 (counterexample): a subscription with no magnitude threshold and no
direction gate, previous ratio 0.5, and a check pass computing ratio 0.5005
(stat 50.05 on bounds 0..100).  The delta 0.0005 is non-zero and passes every
configured filter, so the claim says a ratio-changed event is emitted, but
the engine emits none: the delta does not exceed the hard-coded 0.001
epsilon. -/
theorem tiny_ratio_delta_not_emitted :
    (checkAndEmitBoundEventsForStat "hp" cfgNF [("hp", 1001/20)] (some (1/2))
      (some "Normal")).currentRatio = 1001/2000 ∧
    ratioEmitSpecClaim (1/2) (1001/2000) cfgNF ∧
    EventType.boundRatioChanged ∉
      (checkAndEmitBoundEventsForStat "hp" cfgNF [("hp", 1001/20)] (some (1/2))
        (some "Normal")).events := by
  refine ⟨?_, ?_, ?_⟩
  · norm_num [checkAndEmitBoundEventsForStat, cfgNF, simpleBounds, calculateBounds,
      calculateRatio, evalBound, mapGet, List.find?]
  · unfold ratioEmitSpecClaim
    refine ⟨by norm_num, ?_, ?_, ?_⟩
    · intro t h
      simp [cfgNF] at h
    · intro h
      simp [cfgNF] at h
    · intro h
      simp [cfgNF] at h
  · norm_num [checkAndEmitBoundEventsForStat, cfgNF, simpleBounds, calculateBounds,
      calculateRatio, evalBound, mapGet, List.find?, getStateDescription, isAtMax,
      isAtMin, DEFAULT_BOUND_THRESHOLDS, shouldEmitRatioChangeEvent, truthyQ,
      shouldEmitThresholdCrossedEvent, calculateDistanceFromMin,
      calculateDistanceFromMax, isWithinBounds, abs]
    decide

/-- C3 (amended): for a subscription with a remembered previous ratio, a
check pass emits a ratio-changed event if and only if the absolute ratio
delta exceeds the hard-coded epsilon 0.001 and the original filter
conditions hold (non-zero delta, configured magnitude threshold met,
configured direction gate satisfied).  The examples of the claim stand: with
threshold 0.1, a ratio change 0.50 → 0.55 emits no event and 0.50 → 0.65
emits one. -/
theorem ratio_changed_emission_characterization (statType : String)
    (config : BoundEventConfig) (stats : StatMap) (p : ℚ)
    (prevState : Option String) :
    (EventType.boundRatioChanged ∈
        (checkAndEmitBoundEventsForStat statType config stats (some p)
          prevState).events ↔
      (|(checkAndEmitBoundEventsForStat statType config stats (some p)
          prevState).currentRatio - p| > 1/1000 ∧
       ratioEmitSpecClaim p
         (checkAndEmitBoundEventsForStat statType config stats (some p)
           prevState).currentRatio config)) ∧
    EventType.boundRatioChanged ∉
      (checkAndEmitBoundEventsForStat "hp" cfgThr [("hp", 55)] (some (1/2))
        (some "Normal")).events ∧
    EventType.boundRatioChanged ∈
      (checkAndEmitBoundEventsForStat "hp" cfgThr [("hp", 65)] (some (1/2))
        (some "Normal")).events := by
  refine ⟨?_, ?_, ?_⟩
  · simp only [checkAndEmitBoundEventsForStat]
    rw [mem_ratioChanged_events_iff, Bool.and_eq_true, decide_eq_true_eq,
      shouldEmitRatioChangeEvent_eq_true_iff _ config
        (calculateRatio (calculateBounds statType config.boundConfig stats) - p) rfl]
    unfold ratioEmitSpecClaim
    constructor
    · rintro ⟨heps, hrest⟩
      exact ⟨heps, hrest⟩
    · rintro ⟨heps, hrest⟩
      exact ⟨heps, hrest⟩
  · norm_num [checkAndEmitBoundEventsForStat, cfgThr, simpleBounds, calculateBounds,
      calculateRatio, evalBound, mapGet, List.find?, getStateDescription, isAtMax,
      isAtMin, DEFAULT_BOUND_THRESHOLDS, shouldEmitRatioChangeEvent, truthyQ,
      shouldEmitThresholdCrossedEvent, calculateDistanceFromMin,
      calculateDistanceFromMax, isWithinBounds, abs]
    decide
  · norm_num [checkAndEmitBoundEventsForStat, cfgThr, simpleBounds, calculateBounds,
      calculateRatio, evalBound, mapGet, List.find?, getStateDescription, isAtMax,
      isAtMin, DEFAULT_BOUND_THRESHOLDS, shouldEmitRatioChangeEvent, truthyQ,
      shouldEmitThresholdCrossedEvent, calculateDistanceFromMin,
      calculateDistanceFromMax, isWithinBounds, abs]

/-- C7 (confirmed): provided every recorded expiry is positive (as holds for
timings produced by `addEffect` with a positive duration at a nonnegative
clock), `checkExpiredEffects(now)` removes exactly the effects whose recorded
`expiresAt` is at or before `now`, returning their ids in attachment order
and keeping the rest. -/
theorem checkExpiredEffects_removes_exactly_expired (now : ℚ)
    (timings : List EffectTiming)
    (h : ∀ t ∈ timings, ∀ e, t.expiresAt = some e → 0 < e) :
    checkExpiredEffects now timings =
      ((timings.filter (expiredSpec now)).map (fun t => t.effectId),
       timings.filter (fun t => !expiredSpec now t)) := by
  unfold checkExpiredEffects
  have hf : ∀ t ∈ timings, isExpiredAt now t = expiredSpec now t :=
    fun t ht => isExpiredAt_eq_expiredSpec now t (h t ht)
  have e1 : List.filter (isExpiredAt now) timings
      = List.filter (expiredSpec now) timings := List.filter_congr hf
  have e2 : List.filter (fun t => !isExpiredAt now t) timings
      = List.filter (fun t => !expiredSpec now t) timings :=
    List.filter_congr (fun t ht => by rw [hf t ht])
  rw [e1, e2]

/-- Witness for C7, the expiry-boundary example: an effect added at time 1000
with duration 5000 survives a check at 5999 and is removed, with its id
reported, by a check at 6001. -/
theorem checkExpiredEffects_expiry_boundary_witness :
    checkExpiredEffects 5999 [addEffectTiming 1000 "e" (some 5000)]
      = ([], [addEffectTiming 1000 "e" (some 5000)]) ∧
    checkExpiredEffects 6001 [addEffectTiming 1000 "e" (some 5000)]
      = (["e"], []) := by
  have hp : ∀ t ∈ [addEffectTiming 1000 "e" (some 5000)],
      ∀ e, t.expiresAt = some e → 0 < e := by
    intro t ht e he
    simp only [List.mem_singleton] at ht
    subst ht
    norm_num [addEffectTiming] at he
    norm_num [← he]
  constructor
  · rw [checkExpiredEffects_removes_exactly_expired 5999 _ hp]
    norm_num [expiredSpec, addEffectTiming, List.filter]
  · rw [checkExpiredEffects_removes_exactly_expired 6001 _ hp]
    norm_num [expiredSpec, addEffectTiming, List.filter]

/-- C9 (confirmed): when none of the four distance-window fields of a
subscription is set (or they are set to 0, which the truthy guard treats as
unset), every check pass emits a threshold-crossed event, regardless of
whether anything changed since the previous pass. -/
theorem thresholdCrossed_emitted_unconditionally (statType : String)
    (config : BoundEventConfig) (stats : StatMap) (previousRatio : Option ℚ)
    (previousState : Option String)
    (h1 : config.minDistanceFromMin = none ∨ config.minDistanceFromMin = some 0)
    (h2 : config.minDistanceFromMax = none ∨ config.minDistanceFromMax = some 0)
    (h3 : config.maxDistanceFromMin = none ∨ config.maxDistanceFromMin = some 0)
    (h4 : config.maxDistanceFromMax = none ∨ config.maxDistanceFromMax = some 0) :
    EventType.boundThresholdCrossed ∈
      (checkAndEmitBoundEventsForStat statType config stats
        previousRatio previousState).events := by
  have hemit : ∀ d : BoundEventData, shouldEmitThresholdCrossedEvent d config = true := by
    intro d
    unfold shouldEmitThresholdCrossedEvent
    simp [truthyQ_eq_false_of_unset _ h1, truthyQ_eq_false_of_unset _ h2,
      truthyQ_eq_false_of_unset _ h3, truthyQ_eq_false_of_unset _ h4]
  unfold checkAndEmitBoundEventsForStat
  simp [hemit, List.mem_append]

/-- Witness for C9: with no distance filters configured and no remembered
previous ratio or state, a check pass still emits threshold-crossed. -/
theorem thresholdCrossed_emitted_unconditionally_witness :
    EventType.boundThresholdCrossed ∈
      (checkAndEmitBoundEventsForStat "hp" cfgNF [("hp", 50)] none none).events :=
  thresholdCrossed_emitted_unconditionally "hp" cfgNF [("hp", 50)] none none
    (Or.inl rfl) (Or.inl rfl) (Or.inl rfl) (Or.inl rfl)

/-- C5 (confirmed): `requestValue` sorts the qualifying candidates (equipped
gear, registered providers, self-describing active effects) descending by
priority (a stable sort of exactly the collected candidates), returns the
value and id of the first candidate in that order whose `provideValue`
answer is defined, and invokes `provideValue` only on the non-answering
prefix plus that winner — never on any later (lower-priority) candidate.
If no candidate answers, the result is absent.  In particular, with two
capable providers of priorities 10 (returning 5) and 5 (returning 100), the
result is 5 from the priority-10 provider, whose id is the entire
invocation trace. -/
theorem requestValue_resolution (gears : List GearSrc)
    (providers : List ProviderSrc) (effects : List ActiveEffectSrc) :
    List.Sorted candGE (sortCandidates (collectCandidates gears providers effects)) ∧
    (sortCandidates (collectCandidates gears providers effects)).Perm
      (collectCandidates gears providers effects) ∧
    requestValue gears providers effects =
      (match (sortCandidates (collectCandidates gears providers effects)).find?
          (fun c => c.provided.isSome) with
       | some c => c.provided.map (fun v => { value := v, provider := c.id })
       | none => none) ∧
    (requestValueWithTrace gears providers effects).2 =
      (((sortCandidates (collectCandidates gears providers effects)).takeWhile
          (fun c => c.provided.isNone)).map (fun c => c.id)) ++
      (match (sortCandidates (collectCandidates gears providers effects)).find?
          (fun c => c.provided.isSome) with
       | some c => [c.id]
       | none => []) ∧
    requestValueWithTrace []
      [{ id := "p10", priority := 10, canHandle := true, active := true,
         provided := some 5 },
       { id := "p5", priority := 5, canHandle := true, active := true,
         provided := some 100 }] []
      = (some { value := 5, provider := "p10" }, ["p10"]) := by
  refine ⟨List.sorted_insertionSort candGE _, List.perm_insertionSort candGE _,
    ?_, ?_, ?_⟩
  · rw [requestValue, requestValueWithTrace, resolveLoop_spec]
  · rw [requestValueWithTrace, resolveLoop_spec]
  · norm_num [requestValueWithTrace, collectCandidates, sortCandidates,
      resolveLoop, List.insertionSort, List.orderedInsert, candGE, List.filter]

end EntityEffects
